import Mathlib

/-!
# Verification of the mapping core of the SBOM generator

A shallow embedding of the mapping and reconciliation core of
`sbom_generator.py`: the due-diligence index, author resolver, license
normalizer, package mapper, document assembler, relationship generation,
report-path computation and configuration loading. Python dictionaries with
optional keys are embedded as structures with `Option` fields, Python
truthiness of optional strings as `pyTruthy`, and Python runtime exceptions
(unbound local access, attribute access on None) as an explicit
`Except PyError` result. The in-place mutation of the due-diligence list
passed by the caller of `create_packages` is embedded by returning the
post-call list alongside the normal result. Logging calls are embedded as an
explicit list of `LogEvent` values.
-/

namespace SbomGen

/-- A Python runtime exception raised by the embedded code. -/
inductive PyError where
  /-- Python UnboundLocalError: a local variable referenced before assignment. -/
  | unboundLocal (var : String)
  /-- Python AttributeError: attribute access on None. -/
  | attributeError (msg : String)
  deriving DecidableEq, Repr

/-- One logging call made by the embedded code, with the data it interpolates. -/
inductive LogEvent where
  /-- debug: no author found from due-diligence data, falling back to copyrights. -/
  | ddFallbackDebug
  /-- warning: found several authors on the lib, only one is returned. -/
  | multiAuthors (count : Nat)
  /-- warning: no author data found on lib. -/
  | noAuthorData
  /-- warning: unable to find the author of the named library. -/
  | noAuthor (libName : String)
  /-- warning: no copyright info found for the named library. -/
  | noCopyright (libName : String)
  /-- warning: no references were found for the named library. -/
  | noReferences (libName : String)
  /-- warning: the named library has several licenses, only the first is used. -/
  | multiLicense (libName : String) (count : Nat)
  /-- warning: no license found for the named library. -/
  | noLicense (libName : String)
  /-- warning: the configuration file was not found. -/
  | configMissing
  /-- error: unable to parse the configuration file. -/
  | configUnparseable
  deriving DecidableEq, Repr

/-- Python truthiness of an optional string: None and the empty string are
falsy. -/
def pyTruthy : Option String → Bool
  | none => false
  | some s => if s = "" then false else true

/-- One entry of the licenses list of a library: the name field is accessed
with square brackets (required), the spdxName field with a defaulting get
(optional). -/
structure LicenseEntry where
  name : String
  spdxName : Option String
  deriving DecidableEq, Repr

/-- One entry of the copyrightReferences list of a library; both fields are
read with a defaulting get in the source. -/
structure CopyrightEntry where
  copyright : Option String
  author : Option String
  deriving DecidableEq, Repr

/-- One due-diligence record: the library and name fields key the index; the
author field is read with a defaulting get. -/
structure DDEntry where
  library : String
  name : String
  author : Option String
  deriving DecidableEq, Repr

/-- The references dictionary of a library; only its url field is consulted,
with a no-assertion default. -/
structure ReferenceSet where
  url : Option String
  deriving DecidableEq, Repr

/-- One library record from the license report. Fields read with square
brackets in the source (name, filename, sha1) are required; version and
references are read with a defaulting get and are optional; licenses and
copyrightReferences are lists. -/
structure LibraryRecord where
  name : String
  filename : String
  version : Option String
  sha1 : String
  licenses : List LicenseEntry
  copyrightReferences : List CopyrightEntry
  references : Option ReferenceSet
  deriving DecidableEq, Repr

/-- An SPDX field value: a string, the NoAssert marker, or the SPDXNone
marker. -/
inductive SPDXVal where
  | str (s : String)
  | noAssert
  | spdxNone
  deriving DecidableEq, Repr

/-- A package originator: an Organization built from the resolved author, or
the NoAssert marker. -/
inductive Originator where
  | org (author : String)
  | noAssert
  deriving DecidableEq, Repr

/-- A license object as constructed from one license entry: full name and
optional identifier. -/
structure LicenseObj where
  fullName : String
  identifier : Option String
  deriving DecidableEq, Repr

/-- The value stored into the concluded and declared license fields: a single
license object or the SPDXNone marker. -/
inductive LicenseVal where
  | lic (l : LicenseObj)
  | spdxNone
  deriving DecidableEq, Repr

/-- The value stored into the copyright-text field: the list of (optional)
copyright texts, or the SPDXNone marker when the list is empty. -/
inductive CrText where
  | texts (l : List (Option String))
  | spdxNone
  deriving DecidableEq, Repr

/-- The Package fields populated by `create_package`. -/
structure Package where
  name : String
  spdx_id : String
  download_location : SPDXVal
  version : SPDXVal
  file_name : String
  supplier : Originator
  originator : Originator
  files_analyzed : Bool
  homepage : SPDXVal
  check_sum : String × String
  licenses_from_files : List LicenseObj
  conc_lics : LicenseVal
  license_declared : LicenseVal
  cr_text : CrText
  deriving DecidableEq, Repr

/-- The due-diligence index: an association list from (library, license name)
keys to entries; lookup returns the most recently inserted binding. -/
abbrev DDMap := List ((String × String) × DDEntry)

/-- Embeds a defaulting dictionary get on the due-diligence index: `none`
models the Python None returned on a missing key. -/
def ddGet : DDMap → (String × String) → Option DDEntry
  | [], _ => none
  | (k, v) :: rest, key => if k = key then some v else ddGet rest key

/-- Modelled from the spec: the index builder convert_dict_list_to_dict lives
in the external ws-sdk collaborator, not in this repository. Per the spec it
builds a mapping keyed by the pair of library and license-name fields of each
entry; duplicate keys silently overwrite, last write wins. Prepending later
entries realizes last-write-wins under the first-match lookup of `ddGet`. -/
def convert_dict_list_to_dict (lst : List DDEntry) : DDMap :=
  lst.foldl (fun m d => ((d.library, d.name), d) :: m) []

/-- Embeds `get_author_from_cr` (source lines 161-168): collect the truthy
author fields, warn on more than one or on none, and return the result of
authors.pop() when the list is nonempty, else None. Python list.pop with no
argument removes and returns the LAST element. -/
def get_author_from_cr (copyright_references : List CopyrightEntry) :
    Option String × List LogEvent :=
  let authors :=
    (copyright_references.filter (fun a => pyTruthy a.author)).map (fun a => a.author.getD "")
  let logs : List LogEvent :=
    if authors.length > 1 then [LogEvent.multiAuthors authors.length]
    else if authors.length = 0 then [LogEvent.noAuthorData]
    else []
  (authors.getLast?, logs)

/-- Embeds source lines 111-115. The local variable author starts unbound and
its first assignment is guarded by the truthiness of dd_entities, so an empty
dd_entities list reaches the falsiness test of author with author unbound (an
UnboundLocalError), and a missing first match makes the defaulting get on the
first entity an attribute access on None (an AttributeError). Otherwise the
due-diligence author is used when truthy, with a fallback to
`get_author_from_cr`. -/
def resolve_author (dd_entities : List (Option DDEntry))
    (lib_copyrights : List CopyrightEntry) :
    Except PyError (Option String × List LogEvent) :=
  match dd_entities with
  | [] => Except.error (PyError.unboundLocal "author")
  | none :: _ => Except.error (PyError.attributeError "NoneType has no attribute get")
  | some e :: _ =>
    let author := e.author
    if pyTruthy author then Except.ok (author, [])
    else
      let res := get_author_from_cr lib_copyrights
      Except.ok (res.1, LogEvent.ddFallbackDebug :: res.2)

/-- The package identifier generated at source line 103: the literal
SPDXRef-PACKAGE- followed by the library filename. -/
def pkg_spdx_id_of (lib : LibraryRecord) : String :=
  "SPDXRef-PACKAGE-" ++ lib.filename

/-- Embeds `create_package` (source lines 102-158): author resolution,
copyright text, download location, checksum, license normalization, and
construction of the Package, returned with its identifier and the logging
calls made. A raised Python exception is an `Except.error`. -/
def create_package (lib : LibraryRecord) (dd_dict : DDMap) :
    Except PyError (Package × String × List LogEvent) :=
  let pkg_spdx_id := pkg_spdx_id_of lib
  let lib_licenses := lib.licenses
  let dd_keys := lib_licenses.map (fun lic => (lib.filename, lic.name))
  let dd_entities := dd_keys.map (fun k => ddGet dd_dict k)
  let lib_copyrights := lib.copyrightReferences
  match resolve_author dd_entities lib_copyrights with
  | Except.error e => Except.error e
  | Except.ok (author, author_logs) =>
    let origPair : Originator × List LogEvent :=
      if pyTruthy author then (Originator.org (author.getD ""), [])
      else (Originator.noAssert, [LogEvent.noAuthor lib.name])
    let crs := lib_copyrights.map (fun c => c.copyright)
    let crPair : CrText × List LogEvent :=
      if crs.length = 0 then (CrText.spdxNone, [LogEvent.noCopyright lib.name])
      else (CrText.texts crs, [])
    let ref_logs : List LogEvent :=
      match lib.references with
      | none => [LogEvent.noReferences lib.name]
      | some _ => []
    let download_location : SPDXVal :=
      match lib.references with
      | some r => (match r.url with | some u => SPDXVal.str u | none => SPDXVal.noAssert)
      | none => SPDXVal.noAssert
    let licenses_from_files := lib_licenses.map (fun lic => LicenseObj.mk lic.name lic.spdxName)
    let multi_logs : List LogEvent :=
      if licenses_from_files.length > 1 then
        [LogEvent.multiLicense lib.name licenses_from_files.length]
      else []
    let licPair : LicenseVal × List LogEvent :=
      match licenses_from_files with
      | l :: _ => (LicenseVal.lic l, [])
      | [] => (LicenseVal.spdxNone, [LogEvent.noLicense lib.name])
    let pkg : Package :=
      { name := lib.name
        spdx_id := pkg_spdx_id
        download_location := download_location
        version := (match lib.version with
                    | some v => SPDXVal.str v
                    | none => SPDXVal.noAssert)
        file_name := lib.filename
        supplier := origPair.1
        originator := origPair.1
        files_analyzed := false
        homepage := download_location
        check_sum := ("SHA-1", lib.sha1)
        licenses_from_files := licenses_from_files
        conc_lics := licPair.1
        license_declared := licPair.1
        cr_text := crPair.1 }
    Except.ok (pkg, pkg_spdx_id,
      author_logs ++ origPair.2 ++ crPair.2 ++ ref_logs ++ multi_logs ++ licPair.2)

/-- Python rstrip with an asterisk argument, on the character list: drop the
maximal run of trailing asterisks. -/
def pyRstripChars (cs : List Char) : List Char :=
  (cs.reverse.dropWhile (fun c => c = '*')).reverse

/-- The rstrip applied to the library field of each due-diligence entry at
source line 88. -/
def pyRstripStar (s : String) : String :=
  String.mk (pyRstripChars s.data)

/-- The wording of the claim about the list mutation, stated independently of
the rstrip embedding: remove all trailing asterisk characters, recursing from
the front. Used to compare the mutation performed by `create_packages`
against the claim. -/
def removeTrailingStarsSpec : List Char → List Char
  | [] => []
  | c :: cs =>
    match removeTrailingStarsSpec cs with
    | [] => if c = '*' then [] else [c]
    | r => c :: r

/-- The per-library loop of `create_packages` (source lines 93-96), stopping
at the first raised exception. -/
def create_packages_loop (dd_dict : DDMap) :
    List LibraryRecord → Except PyError (List Package × List String × List LogEvent)
  | [] => Except.ok ([], [], [])
  | lib :: rest =>
    match create_package lib dd_dict with
    | Except.error e => Except.error e
    | Except.ok (pkg, pid, logs) =>
      match create_packages_loop dd_dict rest with
      | Except.error e => Except.error e
      | Except.ok (pkgs, pids, logs2) => Except.ok (pkg :: pkgs, pid :: pids, logs ++ logs2)

/-- Embeds `create_packages` (source lines 85-99). The in-place update of the
library field of every entry of the due-diligence list passed by the caller is
embedded by returning the post-call list as the first component; the index is
then built from the mutated list and each library is mapped to a package. -/
def create_packages (libs : List LibraryRecord) (due_dil : List DDEntry) :
    List DDEntry × Except PyError (List Package × List String × List LogEvent) :=
  let due_dil_after := due_dil.map (fun d => { d with library := pyRstripStar d.library })
  let dd_dict := convert_dict_list_to_dict due_dil_after
  (due_dil_after, create_packages_loop dd_dict libs)

/-- The document identifier fixed at source line 58. -/
def doc_spdx_id_const : String := "SPDXRef-DOCUMENT"

/-- The document fields populated by `create_document` (source lines 56-66);
the nspace field embeds the namespace field, whose Python name collides with a
Lean keyword. -/
structure Document where
  name : String
  nspace : String
  spdx_id : String
  data_license : String
  deriving DecidableEq, Repr

/-- Embeds `create_document` (source lines 56-66): a document named after the
scope with the fixed identifier and the CC0-1.0 data license, returned
together with its identifier. -/
def create_document (scope_name nspace : String) : Document × String :=
  ({ name := "WhiteSource " ++ scope_name ++ " SBOM report"
     nspace := nspace
     spdx_id := doc_spdx_id_const
     data_license := "CC0-1.0" }, doc_spdx_id_const)

/-- The name of the DESCRIBED_BY relationship type as interpolated at source
line 48. -/
def DESCRIBED_BY_name : String := "DESCRIBED_BY"

/-- The relationship string built at source line 48: package identifier,
relationship-type name and document identifier, space separated. -/
def mk_described_by (pkg_id doc_id : String) : String :=
  pkg_id ++ " " ++ DESCRIBED_BY_name ++ " " ++ doc_id

/-- The relationship-appending loop of `create_sbom_doc` (source lines 47-48):
one Relationship appended per package identifier, in order. -/
def create_relationships (pkgs_spdx_ids : List String) (doc_id : String) : List String :=
  pkgs_spdx_ids.foldl (fun acc pkg_id => acc ++ [mk_described_by pkg_id doc_id]) []

/-- Python single-character replacement by underscore over the character
list. -/
def pyReplaceChar (s : List Char) (c : Char) : List Char :=
  s.map (fun x => if x = c then '_' else x)

/-- Embeds `replace_invalid_chars` (source lines 202-208): successive
single-character replacement by underscore, one pass per invalid character.
The invalid set comes from the external ws-sdk constant INVALID_FS_CHARS and
is a parameter here. -/
def replace_invalid_chars (invalid : List Char) (filename : String) : String :=
  String.mk (invalid.foldl pyReplaceChar filename.data)

/-- One variant of the SPDXFileType enumeration (source lines 235-263):
suffix, writer module path, file flags, encoding. -/
structure SPDXFileTypeInfo where
  suffix : String
  module_classpath : String
  f_flags : String
  encoding : Option String
  deriving DecidableEq, Repr

/-- The lowercased member names of SPDXFileType in definition order (the JSON
and YAML members are commented out in the source). -/
def spdxFileTypeMembers : List String := ["tv", "rdf", "xml"]

/-- Embeds the get_file_type classmethod of SPDXFileType (source lines
245-247): `none` models the KeyError raised on an unknown tag. -/
def get_file_type : String → Option SPDXFileTypeInfo
  | "tv" => some { suffix := "tv", module_classpath := "spdx.writers.tagvalue",
                   f_flags := "w", encoding := some "utf-8" }
  | "rdf" => some { suffix := "xml", module_classpath := "spdx.writers.rdf",
                    f_flags := "wb", encoding := none }
  | "xml" => some { suffix := "xml", module_classpath := "spdx.writers.xml",
                    f_flags := "wb", encoding := none }
  | _ => none

/-- The path computation of write_file (source lines 222-232): the report
filename is the document name, a dash, the rendered document version, a dot
and the format suffix, with invalid characters replaced, joined to the output
directory. The disk write itself is the external serialization
collaborator. -/
def write_file (invalid : List Char) (out_dir doc_name doc_version : String)
    (file_type : String) : Option String :=
  (get_file_type file_type).map (fun ft =>
    out_dir ++ "/" ++
      replace_invalid_chars invalid (doc_name ++ "-" ++ doc_version ++ "." ++ ft.suffix))

/-- Embeds `write_report` (source lines 211-219): the tag all expands to every
member of SPDXFileType; each requested tag yields one path via
`write_file`. -/
def write_report (invalid : List Char) (out_dir doc_name doc_version : String)
    (file_type : String) : List (Option String) :=
  let f_types := if file_type = "all" then spdxFileTypeMembers else [file_type]
  f_types.map (write_file invalid out_dir doc_name doc_version)

/-- The outcome of reading and parsing the extra-configuration file (source
lines 177-183): parsed contents, a FileNotFoundError, or a
json.JSONDecodeError. -/
inductive ConfigRead where
  | parsed (cfg : List (String × String))
  | fileNotFound
  | decodeError
  deriving DecidableEq, Repr

/-- The try and except blocks of the configuration loader (source lines
176-183): the extra configuration stays the empty dictionary on either caught
exception, with the corresponding log call; no exception escapes. -/
def initExtraConf : ConfigRead → List (String × String) × List LogEvent
  | ConfigRead.parsed cfg => (cfg, [])
  | ConfigRead.fileNotFound => ([], [LogEvent.configMissing])
  | ConfigRead.decodeError => ([], [LogEvent.configUnparseable])

/-- Embeds a defaulting dictionary get on the parsed configuration object. -/
def cfgGet (cfg : List (String × String)) (key dflt : String) : String :=
  match cfg.find? (fun p => p.1 = key) with
  | some p => p.2
  | none => dflt

/-- Embeds the namespace lookup with its placeholder default at source
line 35. -/
def resolved_namespace (cfg : List (String × String)) : String :=
  cfgGet cfg "namespace" "http://[CreatorWebsite]/[pathToSpdx]/[DocumentName]-[UUID]"

/-- Embeds the organization email lookup with its placeholder default at
source line 39. -/
def resolved_org_email (cfg : List (String × String)) : String :=
  cfgGet cfg "org_email" "ORG_EMAIL"

/-- Embeds the person lookup with its placeholder default at source line 40. -/
def resolved_person (cfg : List (String × String)) : String :=
  cfgGet cfg "person" "PERSON"

/-- Embeds the person email lookup with its placeholder default at source
line 41. -/
def resolved_person_email (cfg : List (String × String)) : String :=
  cfgGet cfg "person_email" "PERSON_EMAIL"

/-- Projection: the originator of a successfully created package. -/
def originator_of (r : Except PyError (Package × String × List LogEvent)) : Option Originator :=
  match r with
  | Except.ok (pkg, _, _) => some pkg.originator
  | Except.error _ => none

/-- Projection: the identifier returned by a successful `create_package`. -/
def pid_of (r : Except PyError (Package × String × List LogEvent)) : Option String :=
  match r with
  | Except.ok (_, pid, _) => some pid
  | Except.error _ => none

/-- Projection: the logging calls of a successful `create_package`. -/
def logs_of (r : Except PyError (Package × String × List LogEvent)) : List LogEvent :=
  match r with
  | Except.ok (_, _, logs) => logs
  | Except.error _ => []

/-! ## Concrete inputs used by the claim theorems -/

/-- A library with an empty license list and empty copyright list. -/
def lib_c1_empty : LibraryRecord :=
  { name := "alpha", filename := "a.jar", version := none, sha1 := "1111",
    licenses := [], copyrightReferences := [], references := none }

/-- A library with two licenses whose first key has no due-diligence match. -/
def lib_c1_twolic : LibraryRecord :=
  { name := "alpha2", filename := "a2.jar", version := none, sha1 := "1112",
    licenses := [{ name := "MIT", spdxName := some "MIT" },
                 { name := "Apache-2.0", spdxName := some "Apache-2.0" }],
    copyrightReferences := [{ copyright := some "c", author := some "Ann" }],
    references := none }

/-- A due-diligence index matching only the second license key of
`lib_c1_twolic`. -/
def dd_c1 : DDMap :=
  [(("a2.jar", "Apache-2.0"),
    { library := "a2.jar", name := "Apache-2.0", author := some "Acme" })]

/-- A library with no due-diligence author and two copyright authors, Alice
then Bob in input order. -/
def lib_c2 : LibraryRecord :=
  { name := "gamma", filename := "c.jar", version := none, sha1 := "2222",
    licenses := [{ name := "MIT", spdxName := some "MIT" }],
    copyrightReferences := [{ copyright := some "c1", author := some "Alice" },
                            { copyright := some "c2", author := some "Bob" }],
    references := none }

/-- A due-diligence index whose matching entry for `lib_c2` carries no
author. -/
def dd_c2 : DDMap :=
  [(("c.jar", "MIT"), { library := "c.jar", name := "MIT", author := none })]

/-- A library with two license keys: the first has a due-diligence match with
an empty author, the second a match with a non-empty author. -/
def lib_c4 : LibraryRecord :=
  { name := "delta", filename := "d.jar", version := none, sha1 := "4444",
    licenses := [{ name := "L1", spdxName := none },
                 { name := "L2", spdxName := none }],
    copyrightReferences := [{ copyright := some "cc", author := some "Carol" }],
    references := none }

/-- The due-diligence index for `lib_c4`: the first key maps to an entry with
an empty author, the second key to an entry with author Acme. -/
def dd_c4 : DDMap :=
  [(("d.jar", "L1"), { library := "d.jar", name := "L1", author := some "" }),
   (("d.jar", "L2"), { library := "d.jar", name := "L2", author := some "Acme" })]

/-- The witness library for the amended author-priority claim: its sole
license key has a due-diligence match with a non-empty author, and its
copyright list carries a different author. -/
def lib_c4w : LibraryRecord :=
  { name := "deltaw", filename := "dw.jar", version := none, sha1 := "4445",
    licenses := [{ name := "MIT", spdxName := some "MIT" }],
    copyrightReferences := [{ copyright := some "cw", author := some "Carol" }],
    references := none }

/-- The due-diligence index for `lib_c4w`. -/
def dd_c4w : DDMap :=
  [(("dw.jar", "MIT"), { library := "dw.jar", name := "MIT", author := some "Acme" })]

/-- A library with an empty license list, used for the zero-license claim. -/
def lib_c5 : LibraryRecord :=
  { name := "zeta", filename := "z.jar", version := none, sha1 := "5555",
    licenses := [], copyrightReferences := [{ copyright := some "cz", author := some "Zoe" }],
    references := none }

/-- A nonempty due-diligence index, showing the zero-license crash does not
depend on the index being empty. -/
def dd_c5 : DDMap :=
  [(("z.jar", "MIT"), { library := "z.jar", name := "MIT", author := some "Zed" })]

/-- A library with two licenses and no due-diligence match at all. -/
def lib_c6 : LibraryRecord :=
  { name := "eta", filename := "e.jar", version := none, sha1 := "6666",
    licenses := [{ name := "MIT", spdxName := some "MIT" },
                 { name := "GPL-2.0", spdxName := some "GPL-2.0" }],
    copyrightReferences := [], references := none }

/-- The witness library for the amended multi-license claim: two licenses and
a due-diligence match on the first key. -/
def lib_c6w : LibraryRecord :=
  { name := "etaw", filename := "ew.jar", version := none, sha1 := "6667",
    licenses := [{ name := "MIT", spdxName := some "MIT" },
                 { name := "GPL-2.0", spdxName := some "GPL-2.0" }],
    copyrightReferences := [], references := none }

/-- The due-diligence index for `lib_c6w`. -/
def dd_c6w : DDMap :=
  [(("ew.jar", "MIT"), { library := "ew.jar", name := "MIT", author := some "Eve" })]

/-- A library named A with the filename shared by `lib_c7b`. -/
def lib_c7a : LibraryRecord :=
  { name := "A", filename := "foo-1.0.jar", version := none, sha1 := "7777",
    licenses := [{ name := "MIT", spdxName := some "MIT" }],
    copyrightReferences := [], references := none }

/-- A library named B, distinct from `lib_c7a` but with the same filename. -/
def lib_c7b : LibraryRecord :=
  { name := "B", filename := "foo-1.0.jar", version := none, sha1 := "7778",
    licenses := [{ name := "MIT", spdxName := some "MIT" }],
    copyrightReferences := [], references := none }

/-- A due-diligence index matching the shared license key of `lib_c7a` and
`lib_c7b`, so both package creations succeed. -/
def dd_c7 : DDMap :=
  [(("foo-1.0.jar", "MIT"),
    { library := "foo-1.0.jar", name := "MIT", author := some "Acme" })]

/-- The first witness library for the amended identifier claim. -/
def lib_c7w1 : LibraryRecord :=
  { name := "W1", filename := "w1.jar", version := none, sha1 := "7001",
    licenses := [{ name := "MIT", spdxName := some "MIT" }],
    copyrightReferences := [], references := none }

/-- The second witness library for the amended identifier claim, with a
different filename. -/
def lib_c7w2 : LibraryRecord :=
  { name := "W2", filename := "w2.jar", version := none, sha1 := "7002",
    licenses := [{ name := "MIT", spdxName := some "MIT" }],
    copyrightReferences := [], references := none }

/-- A due-diligence index matching the license keys of both witness
libraries. -/
def dd_c7w : DDMap :=
  [(("w1.jar", "MIT"), { library := "w1.jar", name := "MIT", author := some "Acme" }),
   (("w2.jar", "MIT"), { library := "w2.jar", name := "MIT", author := some "Acme" })]

/-! ## Claim theorems -/

/-- C1: the claim states author resolution is total and never raises. The code
violates it: on an empty license-entry list the author variable is referenced
unbound, and when the first (filename, license-name) key has no due-diligence
match while a later key does, the defaulting get is an attribute access on
None. Both runs of `create_package` end in a raised exception instead of an
author-or-failure outcome. -/
theorem c1_author_resolution_raises :
    create_package lib_c1_empty [] = Except.error (PyError.unboundLocal "author") ∧
    create_package lib_c1_twolic dd_c1 =
      Except.error (PyError.attributeError "NoneType has no attribute get") ∧
    ddGet dd_c1 (lib_c1_twolic.filename, "Apache-2.0") =
      some { library := "a2.jar", name := "Apache-2.0", author := some "Acme" } :=
  ⟨rfl, rfl, rfl⟩

/-- C2: the claim (and the log message in the code itself) says the FIRST
copyright author in input order is selected; the code returns the result of
authors.pop(), which is the LAST element. On a record with authors Alice then
Bob and no due-diligence author, the resolved author and package originator
are Bob, not Alice; the multi-author diagnostic is logged. -/
theorem c2_copyright_author_is_last :
    get_author_from_cr lib_c2.copyrightReferences =
      (some "Bob", [LogEvent.multiAuthors 2]) ∧
    originator_of (create_package lib_c2 dd_c2) = some (Originator.org "Bob") ∧
    Originator.org "Bob" ≠ Originator.org "Alice" ∧
    LogEvent.multiAuthors 2 ∈ logs_of (create_package lib_c2 dd_c2) :=
  ⟨rfl, rfl, by decide, by decide⟩

/-- C3 counterexample: requesting the format all returns three paths, but the
RDF and XML members share the suffix xml, so the suffixes are not pairwise
distinct and the second and third paths coincide. -/
theorem c3_counterexample :
    write_report [] "out" "D" "V" "all" =
      [some "out/D-V.tv", some "out/D-V.xml", some "out/D-V.xml"] ∧
    ¬ (write_report [] "out" "D" "V" "all").Nodup ∧
    (get_file_type "rdf").map SPDXFileTypeInfo.suffix =
      (get_file_type "xml").map SPDXFileTypeInfo.suffix :=
  ⟨rfl, by decide, rfl⟩

/-- C4 counterexample: `lib_c4` has a due-diligence match on its second
license key carrying the non-empty author Acme, yet the resulting originator
is the copyright author Carol, because only the first match of the key list is
ever consulted and its author is empty. -/
theorem c4_counterexample :
    ddGet dd_c4 (lib_c4.filename, "L2") =
      some { library := "d.jar", name := "L2", author := some "Acme" } ∧
    originator_of (create_package lib_c4 dd_c4) = some (Originator.org "Carol") ∧
    Originator.org "Carol" ≠ Originator.org "Acme" :=
  ⟨rfl, rfl, by decide⟩

/-- C5: the claim says a zero-license record yields a package whose declared
and concluded license are the SPDXNone marker. The code never reaches license
handling: with zero license entries the author variable is referenced unbound
and package creation raises, producing no package at all. -/
theorem c5_zero_license_crash :
    lib_c5.licenses = [] ∧
    create_package lib_c5 dd_c5 = Except.error (PyError.unboundLocal "author") :=
  ⟨rfl, rfl⟩

/-- C6 counterexample: a record with two license entries but no due-diligence
match for its first key makes package creation raise an attribute access on
None, so no package with the claimed license fields is produced. -/
theorem c6_counterexample :
    lib_c6.licenses.length = 2 ∧
    create_package lib_c6 [] =
      Except.error (PyError.attributeError "NoneType has no attribute get") :=
  ⟨rfl, rfl⟩

/-- C7 counterexample: the generated identifier is SPDXRef-PACKAGE- followed
by the filename, not PACKAGE- followed by the filename; and two distinct
libraries sharing a filename receive the same identifier, so identifiers are
not unique per distinct library. -/
theorem c7_counterexample :
    pid_of (create_package lib_c7a dd_c7) = some "SPDXRef-PACKAGE-foo-1.0.jar" ∧
    pid_of (create_package lib_c7a dd_c7) ≠ some "PACKAGE-foo-1.0.jar" ∧
    lib_c7a ≠ lib_c7b ∧
    pid_of (create_package lib_c7a dd_c7) = pid_of (create_package lib_c7b dd_c7) :=
  ⟨rfl, by decide, by decide, rfl⟩

/-- C9: configuration loading survives both a missing file (logged as a
warning) and an unparseable file (logged as an error), leaving the empty
configuration, from which every recognized key resolves to its documented
placeholder default, so processing continues with defaults. -/
theorem c9_config_error_defaults :
    initExtraConf ConfigRead.fileNotFound = ([], [LogEvent.configMissing]) ∧
    initExtraConf ConfigRead.decodeError = ([], [LogEvent.configUnparseable]) ∧
    resolved_namespace (initExtraConf ConfigRead.fileNotFound).1 =
      "http://[CreatorWebsite]/[pathToSpdx]/[DocumentName]-[UUID]" ∧
    resolved_org_email (initExtraConf ConfigRead.fileNotFound).1 = "ORG_EMAIL" ∧
    resolved_person (initExtraConf ConfigRead.fileNotFound).1 = "PERSON" ∧
    resolved_person_email (initExtraConf ConfigRead.fileNotFound).1 = "PERSON_EMAIL" ∧
    resolved_namespace (initExtraConf ConfigRead.decodeError).1 =
      "http://[CreatorWebsite]/[pathToSpdx]/[DocumentName]-[UUID]" ∧
    resolved_org_email (initExtraConf ConfigRead.decodeError).1 = "ORG_EMAIL" ∧
    resolved_person (initExtraConf ConfigRead.decodeError).1 = "PERSON" ∧
    resolved_person_email (initExtraConf ConfigRead.decodeError).1 = "PERSON_EMAIL" :=
  ⟨rfl, rfl, rfl, rfl, rfl, rfl, rfl, rfl, rfl, rfl⟩


theorem list_foldl_append_singleton {α β : Type} (f : α → β) (l : List α) (acc : List β) :
    l.foldl (fun a x => a ++ [f x]) acc = acc ++ l.map f := by
  induction l generalizing acc with
  | nil => simp
  | cons x xs ih => simp [ih]

theorem c8_described_by_relationships (scope_name nspace : String)
    (pkgs_spdx_ids : List String) :
    create_relationships pkgs_spdx_ids (create_document scope_name nspace).2 =
      pkgs_spdx_ids.map (fun pkg_id => pkg_id ++ " DESCRIBED_BY SPDXRef-DOCUMENT") ∧
    (create_relationships pkgs_spdx_ids (create_document scope_name nspace).2).length =
      pkgs_spdx_ids.length := by
  have hmap : create_relationships pkgs_spdx_ids (create_document scope_name nspace).2 =
      pkgs_spdx_ids.map (fun pkg_id => pkg_id ++ " DESCRIBED_BY SPDXRef-DOCUMENT") := by
    rw [create_relationships, list_foldl_append_singleton]
    simp only [List.nil_append]
    congr 1
    funext i
    apply String.ext
    simp [mk_described_by, DESCRIBED_BY_name, create_document, doc_spdx_id_const,
      String.data_append]
  exact ⟨hmap, by rw [hmap]; simp⟩

theorem pyRstripChars_eq_spec (cs : List Char) :
    pyRstripChars cs = removeTrailingStarsSpec cs := by
  induction cs with
  | nil => rfl
  | cons c cs ih =>
    have h1 : pyRstripChars (c :: cs) =
        ((cs.reverse ++ [c]).dropWhile (fun x => x = '*')).reverse := by
      simp [pyRstripChars]
    rw [List.dropWhile_append] at h1
    by_cases h : cs.reverse.dropWhile (fun x => x = '*') = []
    · have hnil : pyRstripChars cs = [] := by simp [pyRstripChars, h]
      rw [removeTrailingStarsSpec, ← ih, hnil]
      rw [h1, h]
      by_cases hc : c = '*' <;> simp [List.dropWhile, hc]
    · have hne : removeTrailingStarsSpec cs ≠ [] := by
        rw [← ih]
        intro hcon
        apply h
        simpa [pyRstripChars] using congrArg List.reverse hcon
      rw [h1, if_neg (by simpa using h)]
      have h2 : (List.dropWhile (fun x => decide (x = '*')) cs.reverse).reverse
          = removeTrailingStarsSpec cs := by rw [← ih]; rfl
      rw [List.reverse_append, h2]
      cases hr : removeTrailingStarsSpec cs with
      | nil => exact absurd hr hne
      | cons r rs =>
        show [c].reverse ++ (r :: rs) = removeTrailingStarsSpec (c :: cs)
        simp only [removeTrailingStarsSpec, hr, List.reverse_cons, List.reverse_nil,
          List.nil_append, List.singleton_append]

/-- C10: `create_packages` mutates its due-diligence input in place: after the
call, every entry of the list passed by the caller holds its library field
with all trailing asterisk characters removed (here proved against the
independently stated `removeTrailingStarsSpec`), the other fields
untouched. -/
theorem c10_create_packages_mutates_due_dil (libs : List LibraryRecord)
    (due_dil : List DDEntry) :
    (create_packages libs due_dil).1 =
      due_dil.map (fun d =>
        { d with library := String.mk (removeTrailingStarsSpec d.library.data) }) := by
  have hdef : (create_packages libs due_dil).1 =
      due_dil.map (fun d => { d with library := pyRstripStar d.library }) := rfl
  rw [hdef]
  congr 1
  funext d
  rw [pyRstripStar, pyRstripChars_eq_spec]

theorem foldl_pyReplaceChar_append (invalid : List Char) (xs ys : List Char) :
    invalid.foldl pyReplaceChar (xs ++ ys) =
      invalid.foldl pyReplaceChar xs ++ invalid.foldl pyReplaceChar ys := by
  induction invalid generalizing xs ys with
  | nil => rfl
  | cons c cs ih =>
    show cs.foldl pyReplaceChar (pyReplaceChar (xs ++ ys) c) = _
    rw [show pyReplaceChar (xs ++ ys) c = pyReplaceChar xs c ++ pyReplaceChar ys c from by
      simp [pyReplaceChar]]
    exact ih _ _

theorem replace_path_split (invalid : List Char) (out_dir pre suf : String) :
    out_dir ++ "/" ++ replace_invalid_chars invalid (pre ++ suf) =
      out_dir ++ "/" ++ replace_invalid_chars invalid pre ++
        replace_invalid_chars invalid suf := by
  apply String.ext
  simp [String.data_append, replace_invalid_chars, foldl_pyReplaceChar_append]

/-- C3 amended: requesting format all yields exactly three output paths with a
shared base derived from document name and version with invalid characters
replaced; the first carries the tv suffix while the RDF and XML paths both
carry the xml suffix (and therefore coincide). -/
theorem c3_amended (invalid : List Char) (out_dir doc_name doc_version : String) :
    ∃ base : String,
      write_report invalid out_dir doc_name doc_version "all" =
        [some (base ++ replace_invalid_chars invalid "tv"),
         some (base ++ replace_invalid_chars invalid "xml"),
         some (base ++ replace_invalid_chars invalid "xml")] ∧
      (write_report invalid out_dir doc_name doc_version "all").length = 3 := by
  refine ⟨out_dir ++ "/" ++
    replace_invalid_chars invalid (doc_name ++ "-" ++ doc_version ++ "."), ?_, rfl⟩
  show [some (out_dir ++ "/" ++ replace_invalid_chars invalid
          (doc_name ++ "-" ++ doc_version ++ "." ++ "tv")),
        some (out_dir ++ "/" ++ replace_invalid_chars invalid
          (doc_name ++ "-" ++ doc_version ++ "." ++ "xml")),
        some (out_dir ++ "/" ++ replace_invalid_chars invalid
          (doc_name ++ "-" ++ doc_version ++ "." ++ "xml"))] = _
  simp only [replace_path_split]

/-- C4 amended: when the FIRST license key of a record has a due-diligence
match carrying a non-empty author, the package originator equals that author,
regardless of the copyright entries. -/
theorem c4_amended (lib : LibraryRecord) (dd : DDMap) (lic0 : LicenseEntry)
    (rest : List LicenseEntry) (e : DDEntry) (a : String)
    (hlic : lib.licenses = lic0 :: rest)
    (hdd : ddGet dd (lib.filename, lic0.name) = some e)
    (ha : e.author = some a) (hne : a ≠ "") :
    originator_of (create_package lib dd) = some (Originator.org a) := by
  have hres : resolve_author ((lib.licenses.map (fun lic => (lib.filename, lic.name))).map
      (fun k => ddGet dd k)) lib.copyrightReferences = Except.ok (some a, []) := by
    rw [hlic]
    simp [resolve_author, hdd, ha, pyTruthy, hne]
  simp only [create_package, originator_of]
  rw [hres]
  simp [pyTruthy, hne]

theorem c4_amended_witness :
    lib_c4w.licenses = [{ name := "MIT", spdxName := some "MIT" }] ∧
    ddGet dd_c4w (lib_c4w.filename, "MIT") =
      some { library := "dw.jar", name := "MIT", author := some "Acme" } ∧
    originator_of (create_package lib_c4w dd_c4w) = some (Originator.org "Acme") :=
  ⟨rfl, rfl,
    c4_amended lib_c4w dd_c4w { name := "MIT", spdxName := some "MIT" } []
      { library := "dw.jar", name := "MIT", author := some "Acme" } "Acme" rfl rfl rfl
      (by decide)⟩

/-- C6 amended: for a record with more than one license entry whose first key
has a due-diligence match (so author resolution does not raise), the declared
and concluded license both equal the first entry, the licenses-from-files list
keeps every entry, and a diagnostic naming the library and the count is
logged. -/
theorem c6_amended (lib : LibraryRecord) (dd : DDMap) (l0 l1 : LicenseEntry)
    (rest : List LicenseEntry) (e : DDEntry)
    (hlic : lib.licenses = l0 :: l1 :: rest)
    (hdd : ddGet dd (lib.filename, l0.name) = some e) :
    ∃ pkg pid logs, create_package lib dd = Except.ok (pkg, pid, logs) ∧
      pkg.license_declared = LicenseVal.lic (LicenseObj.mk l0.name l0.spdxName) ∧
      pkg.conc_lics = LicenseVal.lic (LicenseObj.mk l0.name l0.spdxName) ∧
      pkg.licenses_from_files.length = lib.licenses.length ∧
      LogEvent.multiLicense lib.name lib.licenses.length ∈ logs := by
  obtain ⟨auth, alogs, hres⟩ : ∃ auth alogs,
      resolve_author ((lib.licenses.map (fun lic => (lib.filename, lic.name))).map
        (fun k => ddGet dd k)) lib.copyrightReferences = Except.ok (auth, alogs) := by
    rw [hlic]
    by_cases h : pyTruthy e.author
    · exact ⟨e.author, [], by simp [resolve_author, hdd, h]⟩
    · exact ⟨(get_author_from_cr lib.copyrightReferences).1,
        LogEvent.ddFallbackDebug :: (get_author_from_cr lib.copyrightReferences).2,
        by simp [resolve_author, hdd, h]⟩
  simp only [create_package]
  rw [hres, hlic]
  refine ⟨_, _, _, rfl, ?_, ?_, ?_, ?_⟩
  · simp
  · simp
  · simp [hlic]
  · simp [hlic, List.mem_append]

theorem c6_amended_witness :
    lib_c6w.licenses = [{ name := "MIT", spdxName := some "MIT" },
                        { name := "GPL-2.0", spdxName := some "GPL-2.0" }] ∧
    ddGet dd_c6w (lib_c6w.filename, "MIT") =
      some { library := "ew.jar", name := "MIT", author := some "Eve" } ∧
    (∃ pkg pid logs, create_package lib_c6w dd_c6w = Except.ok (pkg, pid, logs) ∧
      pkg.license_declared = LicenseVal.lic (LicenseObj.mk "MIT" (some "MIT")) ∧
      pkg.conc_lics = LicenseVal.lic (LicenseObj.mk "MIT" (some "MIT")) ∧
      pkg.licenses_from_files.length = lib_c6w.licenses.length ∧
      LogEvent.multiLicense lib_c6w.name lib_c6w.licenses.length ∈ logs) :=
  ⟨rfl, rfl,
    c6_amended lib_c6w dd_c6w { name := "MIT", spdxName := some "MIT" }
      { name := "GPL-2.0", spdxName := some "GPL-2.0" } []
      { library := "ew.jar", name := "MIT", author := some "Eve" } rfl rfl⟩

theorem create_package_pid (lib : LibraryRecord) (dd : DDMap) (pid : String)
    (h : pid_of (create_package lib dd) = some pid) : pid = pkg_spdx_id_of lib := by
  simp only [create_package, pid_of] at h
  rcases hr : resolve_author ((lib.licenses.map (fun lic => (lib.filename, lic.name))).map
      (fun k => ddGet dd k)) lib.copyrightReferences with e | pr
  · rw [hr] at h
    exact absurd h (by simp)
  · obtain ⟨auth, alogs⟩ := pr
    rw [hr] at h
    simp at h
    exact h.symm

/-- C7 amended: every identifier of a successfully created package has the
form SPDXRef-PACKAGE- followed by the source library filename, and two
libraries with distinct filenames receive distinct identifiers. -/
theorem c7_amended (lib1 lib2 : LibraryRecord) (dd1 dd2 : DDMap) (i1 : String)
    (hf : lib1.filename ≠ lib2.filename)
    (h1 : pid_of (create_package lib1 dd1) = some i1) :
    i1 = "SPDXRef-PACKAGE-" ++ lib1.filename ∧
    pid_of (create_package lib2 dd2) ≠ some i1 := by
  have e1 : i1 = pkg_spdx_id_of lib1 := create_package_pid _ _ _ h1
  refine ⟨e1, ?_⟩
  intro h2
  have e2 : i1 = pkg_spdx_id_of lib2 := create_package_pid _ _ _ h2
  apply hf
  have heq : pkg_spdx_id_of lib1 = pkg_spdx_id_of lib2 := by rw [← e1, ← e2]
  have hd := congrArg String.data heq
  simp only [pkg_spdx_id_of, String.data_append] at hd
  exact String.ext (List.append_cancel_left hd)

theorem c7_amended_witness :
    lib_c7w1.filename ≠ lib_c7w2.filename ∧
    pid_of (create_package lib_c7w1 dd_c7w) = some "SPDXRef-PACKAGE-w1.jar" ∧
    ("SPDXRef-PACKAGE-w1.jar" = "SPDXRef-PACKAGE-" ++ lib_c7w1.filename ∧
      pid_of (create_package lib_c7w2 dd_c7w) ≠ some "SPDXRef-PACKAGE-w1.jar") :=
  ⟨by decide, rfl,
    c7_amended lib_c7w1 lib_c7w2 dd_c7w dd_c7w "SPDXRef-PACKAGE-w1.jar" (by decide) rfl⟩

end SbomGen
